import Mathlib

/-!
Verification of the para-wallet-migration-mcp core: a shallow embedding of
the atomic migration engine (src/core/migration-engine.ts), the replacement
strategies and strategy factory (src/core/replacement-strategy.ts), and the
atomic validator, together with theorems about their behaviour.

JavaScript strings are modelled as Lean `String`; `String.prototype.includes`
and single-occurrence `String.prototype.replace` are reimplemented below on
character lists.  Effectful pieces (the per-operation executors, validator
thunks and rollback action thunks, all of which are opaque `async` functions
in the source) are modelled by their outcomes, passed in as parameters.
-/

/-- Boolean test that the first character list is a prefix of the second
(used to implement the JavaScript substring primitives). -/
def startsWithL : List Char → List Char → Bool
  | [], _ => true
  | _ :: _, [] => false
  | p :: ps, c :: cs => p == c && startsWithL ps cs

/-- Boolean substring occurrence test on character lists. -/
def containsL (pat : List Char) : List Char → Bool
  | [] => startsWithL pat []
  | c :: cs => startsWithL pat (c :: cs) || containsL pat cs

/-- Model of JavaScript `s.includes(pat)`. -/
def sIncludes (s pat : String) : Bool :=
  containsL pat.toList s.toList

/-- Replacement of the first occurrence of `pat` by `rep` in a character
list; positions before the first occurrence are kept unchanged. -/
def replaceFirstL (pat rep : List Char) : List Char → List Char
  | [] => if startsWithL pat [] then rep else []
  | c :: cs =>
    if startsWithL pat (c :: cs) then rep ++ (c :: cs).drop pat.length
    else c :: replaceFirstL pat rep cs

/-- Model of JavaScript `s.replace(pat, rep)` with a string (non-regex)
pattern: only the first occurrence is replaced. -/
def jsReplace (s pat rep : String) : String :=
  ⟨replaceFirstL pat.toList rep.toList s.toList⟩

/-- Model of `dep.replace(/[@/]/g, '-')`: every `@` and `/` becomes `-`. -/
def sanitizeDepId (s : String) : String :=
  ⟨s.toList.map (fun c => if c == '@' || c == '/' then '-' else c)⟩

/-- A substring of `b` is a substring of `a ++ b`. -/
theorem containsL_append_right (a b pat : List Char)
    (h : containsL pat b = true) : containsL pat (a ++ b) = true := by
  induction a with
  | nil => simpa using h
  | cons c cs ih =>
    simp only [List.cons_append, containsL, Bool.or_eq_true]
    exact Or.inr ih

/-- String-level corollary of `containsL_append_right`. -/
theorem sIncludes_append_right (a b pat : String)
    (h : sIncludes b pat = true) : sIncludes (a ++ b) pat = true := by
  unfold sIncludes at *
  have hdata : (a ++ b).toList = a.toList ++ b.toList := rfl
  rw [hdata]
  exact containsL_append_right _ _ _ h

/-! ## Data model (src/core/migration-engine.ts, Core Types) -/

/-- Severity levels of a `ValidationIssue`. -/
inductive Severity
  | critical
  | warning
  | info
deriving Repr, DecidableEq

/-- Embeds `ValidationIssue`. -/
structure ValidationIssue where
  severity : Severity
  code : String
  message : String
  file : Option String := none
  line : Option Nat := none
  fix : Option String := none
deriving Repr, DecidableEq

/-- Embeds `ValidationResult`. -/
structure ValidationResult where
  valid : Bool
  issues : List ValidationIssue
  warnings : List String
deriving Repr, DecidableEq

/-- Provider tag of a `FileImport` (field `type` in the source). -/
inductive ImportType
  | privy
  | reown
  | web3modal
  | wagmi
  | para
  | other
deriving Repr, DecidableEq

/-- Embeds `FileImport`; the source fields `import` and `from` are renamed
`imp` and `fromPkg` (both are reserved words in Lean). -/
structure FileImport where
  file : String
  line : Nat
  imp : String
  fromPkg : String
  type : ImportType
deriving Repr, DecidableEq

/-- Embeds `ProviderUsage`; `props : Record<string, unknown>` is modelled by
an association list of the string renderings of the prop values, the empty
string standing for a JavaScript-falsy value. -/
structure ProviderUsage where
  file : String
  line : Nat
  provider : String
  props : List (String × String)
  active : Bool
deriving Repr, DecidableEq

/-- Embeds `HookUsage`; the source field `from` is renamed `fromPkg`. -/
structure HookUsage where
  file : String
  line : Nat
  hook : String
  fromPkg : String
  usage : String
deriving Repr, DecidableEq

/-- Embeds `StyleImport`; the source field `import` is renamed `imp`. -/
structure StyleImport where
  file : String
  line : Nat
  imp : String
  isParaStyle : Bool
deriving Repr, DecidableEq

/-- Embeds `ProjectState`; `dependencies : Record<string, string>` is an
association list from package name to version string. -/
structure ProjectState where
  dependencies : List (String × String)
  imports : List FileImport
  providers : List ProviderUsage
  hooks : List HookUsage
  styles : List StyleImport
  entryPoints : List String
deriving Repr, DecidableEq

/-- Lookup of a prop value with JavaScript `||` fallback semantics: a missing
key or a falsy (empty-string) value selects the default. -/
def propOr (props : List (String × String)) (key dflt : String) : String :=
  match props.lookup key with
  | some v => if v == "" then dflt else v
  | none => dflt

/-- Operation kinds of a `ReplacementOperation` (field `type` in the source,
one of `dependency | import | provider | hook | style`). -/
inductive OpType
  | dependency
  | importRewrite
  | provider
  | hook
  | style
deriving Repr, DecidableEq

/-- Embeds `ReplacementOperation`. -/
structure ReplacementOperation where
  id : String
  type : OpType
  file : Option String := none
  line : Option Nat := none
  oldValue : String
  newValue : String
  critical : Bool
deriving Repr, DecidableEq

/-- Embeds the `MigrationStrategy` enum. -/
inductive MigrationStrategy
  | privyToPara
  | reownToPara
  | web3modalToPara
  | walletconnectToPara
deriving Repr, DecidableEq

/-- String value carried by each `MigrationStrategy` enum member. -/
def strategyValue : MigrationStrategy → String
  | .privyToPara => "privy-to-para"
  | .reownToPara => "reown-to-para"
  | .web3modalToPara => "web3modal-to-para"
  | .walletconnectToPara => "walletconnect-to-para"

/-- Embeds `RollbackOperation`.  The source field `action : () => Promise<void>`
is an opaque thunk; it is modelled by its outcome `succeeds` (the inverse
actions generated by `generateRollbackPlan` only log and always succeed). -/
structure RollbackOperation where
  operationId : String
  succeeds : Bool
deriving Repr, DecidableEq

/-- Embeds `MigrationResult`; the wall-clock `duration` field is not
modelled. -/
structure MigrationResult where
  success : Bool
  completedOperations : List String
  failedOperations : List String
  validationResults : List ValidationResult
  rollbackExecuted : Bool
  issues : List ValidationIssue
deriving Repr, DecidableEq

/-- Phase selector of a `ValidationCheck` (field `type`, `'pre' | 'post'`). -/
inductive VType
  | pre
  | post
deriving Repr, DecidableEq

/-- Embeds `ValidationCheck`; the `validator` thunk is modelled by its
outcome. -/
structure ValidationCheckM where
  id : String
  type : VType
  outcome : ValidationResult
deriving Repr, DecidableEq

/-! ## Migration engine (src/core/migration-engine.ts, MigrationEngine) -/

/-- Embeds `MigrationEngine.generateRollbackPlan`: one inverse action per
forward operation; each generated action only logs, hence always succeeds. -/
def generateRollbackPlan (operations : List ReplacementOperation) :
    List RollbackOperation :=
  operations.map (fun op => { operationId := op.id, succeeds := true })

/-- Initial value of the private field `this.rollbackPlan`.  The field is
declared as `[]` and is never reassigned anywhere in the class:
`createReplacementPlan` stores the generated rollback plan in
`plan.rollbackPlan`, which `executeRollback` does not read. -/
def engineRollbackPlanField : List RollbackOperation := []

/-- Loop body of `MigrationEngine.executeRollback` after the in-place
`reverse()`: invoke each action in order; a throwing action aborts the loop.
Returns the ids whose actions were invoked (in invocation order) and whether
the whole loop completed without a throw. -/
def rollbackGo : List RollbackOperation → List String × Bool
  | [] => ([], true)
  | rb :: rest =>
    if rb.succeeds then
      let r := rollbackGo rest
      (rb.operationId :: r.1, r.2)
    else ([rb.operationId], false)

/-- Embeds `MigrationEngine.executeRollback`: iterate `this.rollbackPlan`
reversed (LIFO), awaiting each action; there is no per-action error handling,
so the first failing action propagates out of the method. -/
def executeRollback (rollbackPlan : List RollbackOperation) :
    List String × Bool :=
  rollbackGo rollbackPlan.reverse

/-- Embeds the operation loop of `executeAtomicMigration`: apply operations
in plan order; a success is appended to `completedOperations`, a failure to
`failedOperations`; a failing critical operation throws, ending the loop.
Returns (completed, failed, abortedByCriticalFailure). -/
def runOperations (exec : ReplacementOperation → Bool) :
    List ReplacementOperation → List String × List String × Bool
  | [] => ([], [], false)
  | op :: rest =>
    if exec op then
      let r := runOperations exec rest
      (op.id :: r.1, r.2.1, r.2.2)
    else if op.critical then ([], [op.id], true)
    else
      let r := runOperations exec rest
      (r.1, op.id :: r.2.1, r.2.2)

/-- Embeds `MigrationEngine.runValidations`: over the checks of the requested
phase, `valid` is the conjunction, `issues` the concatenation of failing
checks\x27 issues, `warnings` the concatenation of all checks\x27 warnings. -/
def runValidations (vt : VType) (checks : List ValidationCheckM) :
    ValidationResult :=
  (checks.filter (fun c => c.type == vt)).foldl
    (fun acc c =>
      { valid := acc.valid && c.outcome.valid,
        issues := acc.issues ++ (if c.outcome.valid then [] else c.outcome.issues),
        warnings := acc.warnings ++ c.outcome.warnings })
    { valid := true, issues := [], warnings := [] }

/-- The issue pushed by `executeAtomicMigration` when `executeRollback`
throws (the interpolated error text is abstracted away). -/
def rollbackFailedIssue : ValidationIssue :=
  { severity := .critical,
    code := "ROLLBACK_FAILED",
    message := "Rollback failed",
    fix := some "Manual intervention required" }

/-- Result of one `executeAtomicMigration` call together with the ids of the
rollback actions that were actually invoked, in invocation order. -/
structure EngineRun where
  result : MigrationResult
  rollbackInvoked : List String
deriving Repr, DecidableEq

/-- Embeds the `catch` block of `executeAtomicMigration`: attempt
`executeRollback` over the engine field `this.rollbackPlan`; on success set
`rollbackExecuted := true`, otherwise append a single `ROLLBACK_FAILED`
issue. -/
def handleFailure (base : MigrationResult)
    (rollbackPlan : List RollbackOperation) : EngineRun :=
  let r := executeRollback rollbackPlan
  if r.2 then
    { result := { base with rollbackExecuted := true }, rollbackInvoked := r.1 }
  else
    { result := { base with issues := base.issues ++ [rollbackFailedIssue] },
      rollbackInvoked := r.1 }

/-- Embeds `MigrationEngine.executeAtomicMigration`, parametrised by the plan
validations (via their outcomes), the plan operations, the per-operation
execution outcome and the value of the engine field `this.rollbackPlan`. -/
def executeAtomicMigration (checks : List ValidationCheckM)
    (replacements : List ReplacementOperation)
    (exec : ReplacementOperation → Bool)
    (rollbackPlan : List RollbackOperation) : EngineRun :=
  let pre := runValidations .pre checks
  if pre.valid = false then
    handleFailure
      { success := false, completedOperations := [], failedOperations := [],
        validationResults := [pre], rollbackExecuted := false,
        issues := pre.issues } rollbackPlan
  else
    let r := runOperations exec replacements
    if r.2.2 then
      handleFailure
        { success := false, completedOperations := r.1,
          failedOperations := r.2.1, validationResults := [pre],
          rollbackExecuted := false, issues := [] } rollbackPlan
    else
      let post := runValidations .post checks
      if post.valid = false then
        handleFailure
          { success := false, completedOperations := r.1,
            failedOperations := r.2.1, validationResults := [pre, post],
            rollbackExecuted := false, issues := post.issues } rollbackPlan
      else
        { result :=
            { success := true, completedOperations := r.1,
              failedOperations := r.2.1, validationResults := [pre, post],
              rollbackExecuted := false, issues := [] },
          rollbackInvoked := [] }

/-- The engine lifecycle (`scanProjectState`, `createReplacementPlan`,
`executeAtomicMigration`) never assigns the field `this.rollbackPlan`, so an
actual `executeAtomicMigration` call always runs with the empty rollback
list. -/
def executeAtomicMigrationLifecycle (checks : List ValidationCheckM)
    (replacements : List ReplacementOperation)
    (exec : ReplacementOperation → Bool) : EngineRun :=
  executeAtomicMigration checks replacements exec engineRollbackPlanField


/-! ## Privy to Para strategy (src/core/replacement-strategy.ts, PrivyToParaStrategy) -/

/-- Embeds `PrivyToParaStrategy.getParaImportReplacement`. -/
def privyGetParaImportReplacement (s : String) : String :=
  if sIncludes s "usePrivy" then jsReplace s "usePrivy" "useAccount"
  else if sIncludes s "useWallets" then jsReplace s "useWallets" "useWallet"
  else if sIncludes s "useLogin" then jsReplace s "useLogin" "useConnect"
  else if sIncludes s "useLogout" then jsReplace s "useLogout" "useDisconnect"
  else if sIncludes s "PrivyProvider" then jsReplace s "PrivyProvider" "ParaProvider, ParaModal"
  else jsReplace s "@privy-io/react-auth" "@para-wallet/react"

/-- Embeds `HOOK_REPLACEMENT_MAP['privy-to-para']` as consulted by
`PrivyToParaStrategy.getHookReplacement`. -/
def privyHookReplacement : String → Option String
  | "usePrivy" => some "useAccount"
  | "useWallets" => some "useWallet"
  | "useLogin" => some "useConnect"
  | "useLogout" => some "useDisconnect"
  | "useEmbeddedWallet" => some "useWallet"
  | _ => none

/-- Embeds `PrivyToParaStrategy.generatePrivyProvider`. -/
def generatePrivyProvider (props : List (String × String)) : String :=
  "<PrivyProvider\n  appId=\x7b" ++ propOr props "appId" "PRIVY_APP_ID" ++
  "\x7d\n  clientId=\x7b" ++ propOr props "clientId" "PRIVY_CLIENT_ID" ++
  "\x7d\n  config=\x7b\x7b...\x7d\x7d\n>\n  \x7bchildren\x7d\n</PrivyProvider>"

/-- Opening text of the generated `ParaProvider` block, up to the
interpolated api key. -/
def paraProviderHead : String :=
  "<ParaProvider\n  config=\x7b\x7b\n    apiKey: "

/-- Closing text of the `ParaProvider` block generated by
`PrivyToParaStrategy.generateParaProvider`; it contains the nested
`<ParaModal />` child. -/
def privyParaProviderTail : String :=
  ",\n    paraClientConfig: \x7b\n      env: Environment.DEVELOPMENT,\n    \x7d,\n    embeddedWalletConfig: \x7b\n      createOnLogin: \"all-users\",\n      showWalletUiOnLogin: true,\n    \x7d\n  \x7d\x7d\n>\n  \x7bchildren\x7d\n  \x7b/* CRITICAL: ParaModal is REQUIRED - #1 missing piece in failed migrations */\x7d\n  <ParaModal />\n</ParaProvider>"

/-- Embeds `PrivyToParaStrategy.generateParaProvider`. -/
def generateParaProviderPrivy (props : List (String × String)) : String :=
  paraProviderHead ++ propOr props "appId" "PARA_API_KEY" ++ privyParaProviderTail

/-- Embeds `PrivyToParaStrategy.execute`: the six operation groups are
emitted in source order (dependency removals, target dependency addition
and the import, provider, hook and style rewrites). -/
def privyExecute (state : ProjectState) : List ReplacementOperation :=
  [ { id := "remove-privy-deps", type := .dependency,
      oldValue := "@privy-io/react-auth", newValue := "", critical := true },
    { id := "remove-privy-wagmi", type := .dependency,
      oldValue := "@privy-io/wagmi", newValue := "", critical := true },
    { id := "add-para-react", type := .dependency,
      oldValue := "", newValue := "@para-wallet/react", critical := true } ]
  ++ (state.imports.filter (fun i => i.type == .privy)).map (fun i =>
      { id := "replace-import-" ++ i.file ++ "-" ++ toString i.line,
        type := .importRewrite, file := some i.file, line := some i.line,
        oldValue := i.imp, newValue := privyGetParaImportReplacement i.imp,
        critical := true })
  ++ (state.providers.filter (fun p => p.provider == "PrivyProvider")).map (fun p =>
      { id := "replace-provider-" ++ p.file ++ "-" ++ toString p.line,
        type := .provider, file := some p.file, line := some p.line,
        oldValue := generatePrivyProvider p.props,
        newValue := generateParaProviderPrivy p.props, critical := true })
  ++ (state.hooks.filter (fun h => sIncludes h.fromPkg "privy")).filterMap (fun h =>
      match privyHookReplacement h.hook with
      | some newHook => some
          { id := "replace-hook-" ++ h.file ++ "-" ++ toString h.line,
            type := .hook, file := some h.file, line := some h.line,
            oldValue := h.usage, newValue := jsReplace h.usage h.hook newHook,
            critical := false }
      | none => none)
  ++ state.entryPoints.map (fun e =>
      { id := "add-para-css-" ++ e, type := .style, file := some e,
        oldValue := "", newValue := "import \x27@para-wallet/react/styles.css\x27",
        critical := true })

/-- Embeds `PrivyToParaStrategy.validate`. -/
def privyValidate (state : ProjectState) : Bool :=
  (state.dependencies.map Prod.fst).contains "@privy-io/react-auth" ||
  state.imports.any (fun i => i.type == .privy)

/-! ## ReOwn to Para strategy (src/core/replacement-strategy.ts, ReownToParaStrategy) -/

/-- Embeds the `reownDependencies` constant of `ReownToParaStrategy.execute`. -/
def reownDependencies : List String :=
  [ "@reown/appkit", "@reown/appkit-adapter-wagmi", "@reown/appkit-react",
    "@reown/appkit-siwe", "@web3modal/wagmi", "@web3modal/siwe",
    "@web3modal/ethereum" ]

/-- Embeds the `packageMappings` table of
`ReownToParaStrategy.getParaImportReplacement`, in insertion order. -/
def reownPackageMappings : List (String × String) :=
  [ ("@reown/appkit", "@para-wallet/react"),
    ("@reown/appkit-react", "@para-wallet/react"),
    ("@reown/appkit-adapter-wagmi", "@para-wallet/react"),
    ("@web3modal/wagmi", "@para-wallet/react"),
    ("@web3modal/siwe", "@para-wallet/react"),
    ("@web3modal/ethereum", "@para-wallet/react") ]

/-- Loop over `Object.entries(packageMappings)`: the first package name
occurring in the import is replaced; otherwise the import is returned
unchanged. -/
def applyPackageMappings : List (String × String) → String → String
  | [], s => s
  | (oldPkg, newPkg) :: rest, s =>
    if sIncludes s oldPkg then jsReplace s oldPkg newPkg
    else applyPackageMappings rest s

/-- Embeds `ReownToParaStrategy.getParaImportReplacement`. -/
def reownGetParaImportReplacement (s : String) : String :=
  if sIncludes s "useAppKit" then jsReplace s "useAppKit" "useModal"
  else if sIncludes s "useAppKitAccount" then jsReplace s "useAppKitAccount" "useAccount"
  else if sIncludes s "useAppKitTheme" then jsReplace s "useAppKitTheme" "useModal"
  else if sIncludes s "useAppKitState" then jsReplace s "useAppKitState" "useAccount"
  else if sIncludes s "useAppKitEvents" then jsReplace s "useAppKitEvents" "useWallet"
  else if sIncludes s "useWeb3Modal" then jsReplace s "useWeb3Modal" "useModal"
  else if sIncludes s "useWeb3ModalAccount" then jsReplace s "useWeb3ModalAccount" "useAccount"
  else if sIncludes s "useWeb3ModalTheme" then jsReplace s "useWeb3ModalTheme" "useModal"
  else if sIncludes s "createAppKit" then jsReplace s "createAppKit" "ParaProvider, ParaModal"
  else if sIncludes s "createWeb3Modal" then jsReplace s "createWeb3Modal" "ParaProvider, ParaModal"
  else if sIncludes s "defaultWagmiConfig" then jsReplace s "defaultWagmiConfig" "wagmiConfig"
  else applyPackageMappings reownPackageMappings s

/-- Embeds `ReownToParaStrategy.generateReownProvider`. -/
def generateReownProvider (p : ProviderUsage) : String :=
  if sIncludes p.provider "AppKit" then
    "<AppKit \n  projectId=\"" ++ propOr p.props "projectId" "REOWN_PROJECT_ID" ++
    "\"\n  wagmiConfig=\x7bwagmiConfig\x7d\n  metadata=\x7bmetadata\x7d\n>\n  \x7bchildren\x7d\n</AppKit>"
  else if sIncludes p.provider "Web3Modal" then
    "<Web3Modal \n  projectId=\"" ++ propOr p.props "projectId" "WEB3MODAL_PROJECT_ID" ++
    "\"\n  wagmiConfig=\x7bwagmiConfig\x7d\n>\n  \x7bchildren\x7d\n</Web3Modal>"
  else
    p.provider ++ " config=\x7b...\x7d>\x7bchildren\x7d</" ++ p.provider ++ ">"

/-- Closing text of the `ParaProvider` block generated by
`ReownToParaStrategy.generateParaProvider`; it contains the nested
`<ParaModal />` child. -/
def reownParaProviderTail : String :=
  ",\n    paraClientConfig: \x7b\n      env: Environment.DEVELOPMENT,\n    \x7d,\n    embeddedWalletConfig: \x7b\n      createOnLogin: \"all-users\",\n      showWalletUiOnLogin: true,\n    \x7d,\n    wagmiConfig // Keep existing Wagmi config\n  \x7d\x7d\n>\n  \x7bchildren\x7d\n  \x7b/* CRITICAL: ParaModal is REQUIRED - #1 missing piece in failed migrations */\x7d\n  <ParaModal />\n</ParaProvider>"

/-- Embeds `ReownToParaStrategy.generateParaProvider`. -/
def generateParaProviderReown (props : List (String × String)) : String :=
  paraProviderHead ++ propOr props "projectId" "PARA_API_KEY" ++ reownParaProviderTail

/-- Embeds the `reownHooks` constant of `ReownToParaStrategy.isReownHook`. -/
def reownHooks : List String :=
  [ "useAppKit", "useAppKitAccount", "useAppKitTheme", "useAppKitState",
    "useAppKitEvents", "useWeb3Modal", "useWeb3ModalAccount",
    "useWeb3ModalTheme", "useWeb3ModalState" ]

/-- Embeds `ReownToParaStrategy.isReownHook`. -/
def isReownHook (hookName : String) : Bool :=
  reownHooks.contains hookName

/-- Embeds `ReownToParaStrategy.getReownHookReplacement`. -/
def getReownHookReplacement : String → Option String
  | "useAppKit" => some "useModal"
  | "useAppKitAccount" => some "useAccount"
  | "useAppKitTheme" => some "useModal"
  | "useAppKitState" => some "useAccount"
  | "useAppKitEvents" => some "useWallet"
  | "useWeb3Modal" => some "useModal"
  | "useWeb3ModalAccount" => some "useAccount"
  | "useWeb3ModalTheme" => some "useModal"
  | "useWeb3ModalState" => some "useAccount"
  | _ => none

/-- Embeds `ReownToParaStrategy.execute`. -/
def reownExecute (state : ProjectState) : List ReplacementOperation :=
  (reownDependencies.filter
      (fun dep => (state.dependencies.map Prod.fst).contains dep)).map (fun dep =>
      { id := "remove-" ++ sanitizeDepId dep, type := .dependency,
        oldValue := dep, newValue := "", critical := true })
  ++ [ { id := "add-para-react", type := .dependency,
         oldValue := "", newValue := "@para-wallet/react", critical := true } ]
  ++ (state.imports.filter (fun i =>
        i.type == .reown || sIncludes i.fromPkg "reown" || sIncludes i.fromPkg "web3modal")).map (fun i =>
      { id := "replace-import-" ++ i.file ++ "-" ++ toString i.line,
        type := .importRewrite, file := some i.file, line := some i.line,
        oldValue := i.imp, newValue := reownGetParaImportReplacement i.imp,
        critical := true })
  ++ (state.providers.filter (fun p =>
        sIncludes p.provider "AppKit" || sIncludes p.provider "Web3Modal" ||
        sIncludes p.provider "createWeb3Modal")).map (fun p =>
      { id := "replace-provider-" ++ p.file ++ "-" ++ toString p.line,
        type := .provider, file := some p.file, line := some p.line,
        oldValue := generateReownProvider p,
        newValue := generateParaProviderReown p.props, critical := true })
  ++ (state.hooks.filter (fun h => isReownHook h.hook)).filterMap (fun h =>
      match getReownHookReplacement h.hook with
      | some newHook => some
          { id := "replace-hook-" ++ h.file ++ "-" ++ toString h.line,
            type := .hook, file := some h.file, line := some h.line,
            oldValue := h.usage, newValue := jsReplace h.usage h.hook newHook,
            critical := false }
      | none => none)
  ++ state.entryPoints.map (fun e =>
      { id := "add-para-css-" ++ e, type := .style, file := some e,
        oldValue := "", newValue := "import \x27@para-wallet/react/styles.css\x27",
        critical := true })

/-- Embeds `ReownToParaStrategy.validate`. -/
def reownValidate (state : ProjectState) : Bool :=
  let reownPatterns := ["reown", "web3modal", "appkit"]
  let hasReownDeps := (state.dependencies.map Prod.fst).any (fun dep =>
    reownPatterns.any (fun pat => sIncludes dep pat))
  let hasReownImports := state.imports.any (fun i =>
    reownPatterns.any (fun pat => sIncludes i.fromPkg pat || i.type == .reown))
  let hasReownProviders := state.providers.any (fun p =>
    reownPatterns.any (fun pat => sIncludes p.provider.toLower pat))
  hasReownDeps || hasReownImports || hasReownProviders

/-! ## Web3Modal to Para strategy (src/core/replacement-strategy.ts, Web3ModalToParaStrategy) -/

/-- Embeds `Web3ModalToParaStrategy.execute` (a constant three-operation
plan, none of type provider). -/
def web3modalExecute (_state : ProjectState) : List ReplacementOperation :=
  [ { id := "remove-web3modal-wagmi", type := .dependency,
      oldValue := "@web3modal/wagmi", newValue := "", critical := true },
    { id := "remove-web3modal-siwe", type := .dependency,
      oldValue := "@web3modal/siwe", newValue := "", critical := true },
    { id := "add-para-react", type := .dependency,
      oldValue := "", newValue := "@para-wallet/react", critical := true } ]

/-- Embeds `Web3ModalToParaStrategy.validate`. -/
def web3modalValidate (state : ProjectState) : Bool :=
  (state.dependencies.map Prod.fst).any (fun dep => sIncludes dep "web3modal")

/-! ## Strategy factory (src/core/replacement-strategy.ts, StrategyFactory) -/

/-- The concrete strategy classes `StrategyFactory.createStrategy` can
instantiate. -/
inductive StrategyImpl
  | privyToParaStrategy
  | reownToParaStrategy
  | web3modalToParaStrategy
deriving Repr, DecidableEq

/-- Embeds `StrategyFactory.createStrategy`; the `default` branch throws
`Unsupported migration strategy: ...`, modelled as `Except.error`. -/
def createStrategy : MigrationStrategy → Except String StrategyImpl
  | .privyToPara => .ok .privyToParaStrategy
  | .reownToPara => .ok .reownToParaStrategy
  | .web3modalToPara => .ok .web3modalToParaStrategy
  | .walletconnectToPara =>
    .error ("Unsupported migration strategy: " ++ strategyValue .walletconnectToPara)

/-- Embeds `StrategyFactory.detectStrategy`: the fixed-priority fingerprint
cascade Privy, then ReOwn, then Web3Modal. -/
def detectStrategy (state : ProjectState) : Option MigrationStrategy :=
  let deps := state.dependencies.map Prod.fst
  let imports := state.imports.map (fun i => i.fromPkg)
  if deps.contains "@privy-io/react-auth" || imports.any (fun i => sIncludes i "privy") then
    some .privyToPara
  else if deps.any (fun d => sIncludes d "reown") || imports.any (fun i => sIncludes i "reown") then
    some .reownToPara
  else if deps.any (fun d => sIncludes d "web3modal") || imports.any (fun i => sIncludes i "web3modal") then
    some .web3modalToPara
  else none

/-- The Privy branch condition of `detectStrategy`. -/
def privyDetectCond (state : ProjectState) : Bool :=
  (state.dependencies.map Prod.fst).contains "@privy-io/react-auth" ||
  state.imports.any (fun i => sIncludes i.fromPkg "privy")

/-- The ReOwn branch condition of `detectStrategy`. -/
def reownDetectCond (state : ProjectState) : Bool :=
  (state.dependencies.map Prod.fst).any (fun d => sIncludes d "reown") ||
  state.imports.any (fun i => sIncludes i.fromPkg "reown")

/-- The Web3Modal branch condition of `detectStrategy`. -/
def web3modalDetectCond (state : ProjectState) : Bool :=
  (state.dependencies.map Prod.fst).any (fun d => sIncludes d "web3modal") ||
  state.imports.any (fun i => sIncludes i.fromPkg "web3modal")

/-! ## Atomic validator (src/core/replacement-strategy.ts, AtomicValidator) -/

/-- Embeds `AtomicValidator.checkMigratableContent`. -/
def checkMigratableContent (state : ProjectState) : ValidationResult :=
  let oldWalletDeps := (state.dependencies.map Prod.fst).filter (fun dep =>
    sIncludes dep "privy" || sIncludes dep "reown" ||
    sIncludes dep "web3modal" || sIncludes dep "walletconnect")
  if oldWalletDeps.length == 0 then
    { valid := false,
      issues := [{ severity := .critical, code := "NO_MIGRATABLE_CONTENT",
                   message := "No wallet providers detected for migration",
                   fix := some "Ensure the project uses Privy, ReOwn, Web3Modal, or WalletConnect" }],
      warnings := [] }
  else { valid := true, issues := [], warnings := [] }

/-- Embeds `AtomicValidator.checkProjectStructure`. -/
def checkProjectStructure (state : ProjectState) : ValidationResult :=
  if state.entryPoints.length == 0 then
    { valid := false,
      issues := [{ severity := .critical, code := "NO_ENTRY_POINTS",
                   message := "No entry points detected (main.tsx, App.tsx, index.tsx)",
                   fix := some "Ensure project has a valid React entry point" }],
      warnings := [] }
  else { valid := true, issues := [], warnings := [] }

/-- Embeds `AtomicValidator.checkForConflicts`: always valid; a dependency
name containing the target fingerprint only adds a warning. -/
def checkForConflicts (state : ProjectState) : ValidationResult :=
  let hasParaDep := (state.dependencies.map Prod.fst).any (fun dep => sIncludes dep "para")
  { valid := true, issues := [],
    warnings :=
      if hasParaDep then
        ["Para SDK already present - migration may overwrite existing configuration"]
      else [] }

/-- Embeds `AtomicValidator.validatePreFlight`: the three pre-flight checks
contribute their issues when invalid; the method never copies any
constituent check warnings into the battery result. -/
def validatePreFlight (state : ProjectState) : ValidationResult :=
  let c1 := checkMigratableContent state
  let c2 := checkProjectStructure state
  let c3 := checkForConflicts state
  { valid := c1.valid && c2.valid && c3.valid,
    issues := (if c1.valid then [] else c1.issues) ++
              (if c2.valid then [] else c2.issues) ++
              (if c3.valid then [] else c3.issues),
    warnings := [] }

/-- Embeds `AtomicValidator.calculateMigrationSuccess`.  The final
`Math.round((score / maxScore) * 100)` with `maxScore = 100` is modelled
exactly by `(score * 100 + 50) / 100` over naturals. -/
def calculateMigrationSuccess (state : ProjectState) : Nat :=
  let deps := state.dependencies.map Prod.fst
  let hasParaDep := deps.any (fun dep => sIncludes dep "para")
  let hasOldDeps := deps.any (fun dep =>
    sIncludes dep "privy" || sIncludes dep "reown" || sIncludes dep "web3modal")
  let hasParaImports := state.imports.any (fun imp => sIncludes imp.fromPkg "para")
  let hasOldImports := state.imports.any (fun imp =>
    imp.type == .privy || imp.type == .reown || imp.type == .web3modal)
  let hasParaProvider := state.providers.any (fun p => p.provider == "ParaProvider")
  let hasParaModal := state.imports.any (fun imp => sIncludes imp.imp "ParaModal")
  let hasParaCss := state.styles.any (fun style => style.isParaStyle)
  let hasParaHooks := state.hooks.any (fun hook => sIncludes hook.fromPkg "para")
  let score :=
    (if hasParaDep then 15 else 0) + (if !hasOldDeps then 15 else 0) +
    (if hasParaImports then 15 else 0) + (if !hasOldImports then 10 else 0) +
    (if hasParaProvider then 15 else 0) + (if hasParaModal then 10 else 0) +
    (if hasParaCss then 10 else 0) + (if hasParaHooks then 10 else 0)
  (score * 100 + 50) / 100

/-! ## Shared lemmas about the engine loops -/

/-- Behaviour of the rollback loop body when every action succeeds. -/
theorem rollbackGo_all_ok (l : List RollbackOperation)
    (h : ∀ x ∈ l, x.succeeds = true) :
    rollbackGo l = (l.map (fun x => x.operationId), true) := by
  induction l with
  | nil => rfl
  | cons rb rest ih =>
    have hrb : rb.succeeds = true := h rb (List.mem_cons_self _ _)
    have hrest : ∀ x ∈ rest, x.succeeds = true :=
      fun x hx => h x (List.mem_cons_of_mem _ hx)
    simp [rollbackGo, hrb, ih hrest]

/-- Behaviour of the rollback loop body across the first failing action: the
actions after the failure are never invoked. -/
theorem rollbackGo_stops_at_failure (l1 l2 : List RollbackOperation)
    (rb : RollbackOperation) (h1 : ∀ x ∈ l1, x.succeeds = true)
    (hrb : rb.succeeds = false) :
    rollbackGo (l1 ++ rb :: l2) =
      (l1.map (fun x => x.operationId) ++ [rb.operationId], false) := by
  induction l1 with
  | nil => simp [rollbackGo, hrb]
  | cons x rest ih =>
    have hx : x.succeeds = true := h1 x (List.mem_cons_self _ _)
    have hrest : ∀ y ∈ rest, y.succeeds = true :=
      fun y hy => h1 y (List.mem_cons_of_mem _ hy)
    simp [rollbackGo, hx, ih hrest]

/-- Behaviour of the operation loop when no critical operation fails:
no abort occurs, the successes are completed and the failures recorded, all
in plan order. -/
theorem runOperations_no_crit (exec : ReplacementOperation → Bool)
    (ops : List ReplacementOperation)
    (h : ∀ op ∈ ops, exec op = false → op.critical = false) :
    runOperations exec ops =
      ((ops.filter (fun op => exec op)).map (fun op => op.id),
       ((ops.filter (fun op => !(exec op))).map (fun op => op.id), false)) := by
  induction ops with
  | nil => rfl
  | cons op rest ih =>
    have hrest : ∀ x ∈ rest, exec x = false → x.critical = false :=
      fun x hx => h x (List.mem_cons_of_mem _ hx)
    by_cases hop : exec op = true
    · simp [runOperations, hop, ih hrest, List.filter_cons]
    · have hop' : exec op = false := by
        cases hexec : exec op
        · rfl
        · exact absurd hexec hop
      have hcrit : op.critical = false := h op (List.mem_cons_self _ _) hop'
      simp [runOperations, hop', hcrit, ih hrest, List.filter_cons]

/-! ## Concrete fixtures used by the closed theorems -/

/-- A critical dependency-removal operation with id `op0`. -/
def opA : ReplacementOperation :=
  { id := "op0", type := .dependency, oldValue := "@privy-io/react-auth",
    newValue := "", critical := true }

/-- A critical dependency-removal operation with id `op1`. -/
def opB : ReplacementOperation :=
  { id := "op1", type := .dependency, oldValue := "@privy-io/wagmi",
    newValue := "", critical := true }

/-- A non-critical hook-rewrite operation with id `nc-hook`. -/
def ncOp : ReplacementOperation :=
  { id := "nc-hook", type := .hook, oldValue := "usePrivy()",
    newValue := "useAccount()", critical := false }

/-- A passing pre-flight validation check. -/
def checkPreOk : ValidationCheckM :=
  { id := "pre-dependencies", type := .pre,
    outcome := { valid := true, issues := [], warnings := [] } }

/-- A passing post-migration validation check. -/
def checkPostOk : ValidationCheckM :=
  { id := "post-para-modal", type := .post,
    outcome := { valid := true, issues := [], warnings := [] } }

/-- A failing pre-flight validation check carrying one critical issue. -/
def checkPreBad : ValidationCheckM :=
  { id := "pre-dependencies", type := .pre,
    outcome :=
      { valid := false,
        issues := [{ severity := .critical, code := "PRE_FLIGHT_FAILED",
                     message := "Old dependencies not present" }],
        warnings := [] } }

/-- Execution oracle under which exactly the operation `op1` fails. -/
def execFailOp1 : ReplacementOperation → Bool :=
  fun op => !(op.id == "op1")

/-- Execution oracle under which exactly the operation `nc-hook` fails. -/
def execFailNc : ReplacementOperation → Bool :=
  fun op => !(op.id == "nc-hook")

/-- An inverse action for `op0` that succeeds. -/
def rbA : RollbackOperation := { operationId := "op0", succeeds := true }

/-- An inverse action for `op1` whose invocation throws. -/
def rbB : RollbackOperation := { operationId := "op1", succeeds := false }

/-- A project state with one Privy provider usage and nothing else. -/
def statePrivyProvider : ProjectState :=
  { dependencies := [("@privy-io/react-auth", "2.0.0")],
    imports := [], hooks := [], styles := [], entryPoints := [],
    providers := [{ file := "App.tsx", line := 10, provider := "PrivyProvider",
                    props := [("appId", "my-app")], active := true }] }

/-- A project state with no wallet-provider fingerprints at all. -/
def stateNoFingerprints : ProjectState :=
  { dependencies := [("react", "18.2.0"), ("wagmi", "2.0.0")],
    imports := [{ file := "src/main.tsx", line := 3, imp := "useAccount",
                  fromPkg := "wagmi", type := .wagmi }],
    providers := [], hooks := [], styles := [],
    entryPoints := ["src/main.tsx"] }

/-- A project state with both Privy and ReOwn fingerprints. -/
def statePrivyAndReown : ProjectState :=
  { dependencies := [("@privy-io/react-auth", "2.0.0"), ("@reown/appkit", "1.0.0")],
    imports := [], providers := [], hooks := [], styles := [],
    entryPoints := ["src/main.tsx"] }

/-- A project state with both ReOwn and Web3Modal fingerprints but no Privy
fingerprint. -/
def stateReownAndWeb3Modal : ProjectState :=
  { dependencies := [("@reown/appkit", "1.0.0"), ("@web3modal/wagmi", "4.0.0")],
    imports := [], providers := [], hooks := [], styles := [],
    entryPoints := ["src/main.tsx"] }

/-- A project state in which the target (Para) SDK dependency is
already present alongside a Privy dependency. -/
def stateParaPresent : ProjectState :=
  { dependencies := [("@para-wallet/react", "1.0.0"), ("@privy-io/react-auth", "2.0.0")],
    imports := [], providers := [], hooks := [], styles := [],
    entryPoints := ["src/main.tsx"] }

/-- A project state whose only wallet dependency is a WalletConnect
package. -/
def stateWalletconnectOnly : ProjectState :=
  { dependencies := [("@walletconnect/modal", "2.6.0")],
    imports := [], providers := [], hooks := [], styles := [],
    entryPoints := ["src/main.tsx"] }

/-- Fusion of `List.any` with `List.map` for an arbitrary projection. -/
theorem any_map_fused {α β : Type} (f : α → β) (p : β → Bool) (l : List α) :
    (l.map f).any p = l.any (fun x => p (f x)) := by
  induction l with
  | nil => rfl
  | cons x xs ih => simp [ih]

/-- Characterisation of `detectStrategy` as a three-way priority cascade
over the named branch conditions. -/
theorem detectStrategy_eq (state : ProjectState) :
    detectStrategy state =
      (if privyDetectCond state then some MigrationStrategy.privyToPara
       else if reownDetectCond state then some MigrationStrategy.reownToPara
       else if web3modalDetectCond state then some MigrationStrategy.web3modalToPara
       else none) := by
  unfold detectStrategy privyDetectCond reownDetectCond web3modalDetectCond
  simp only [any_map_fused]

/-- C7: detectStrategy resolves multi-provider states by the fixed priority
order Privy before ReOwn before Web3Modal, so a state carrying several
providers\x27 fingerprints always resolves to the earliest-priority one. -/
theorem detectStrategy_fixed_priority (state : ProjectState) :
    (privyDetectCond state = true →
      detectStrategy state = some MigrationStrategy.privyToPara) ∧
    (privyDetectCond state = false → reownDetectCond state = true →
      detectStrategy state = some MigrationStrategy.reownToPara) ∧
    (privyDetectCond state = false → reownDetectCond state = false →
      web3modalDetectCond state = true →
      detectStrategy state = some MigrationStrategy.web3modalToPara) := by
  refine ⟨fun h1 => ?_, fun h1 h2 => ?_, fun h1 h2 h3 => ?_⟩ <;>
    rw [detectStrategy_eq] <;> simp [h1]
  · simp [h2]
  · simp [h2, h3]

/-- Witness for C7: a Privy-and-ReOwn project resolves to the Privy
strategy, and a ReOwn-and-Web3Modal project resolves to the ReOwn
strategy. -/
theorem detectStrategy_fixed_priority_witness :
    detectStrategy statePrivyAndReown = some MigrationStrategy.privyToPara ∧
    detectStrategy stateReownAndWeb3Modal = some MigrationStrategy.reownToPara :=
  ⟨(detectStrategy_fixed_priority statePrivyAndReown).1 (by decide),
   (detectStrategy_fixed_priority stateReownAndWeb3Modal).2.1 (by decide) (by decide)⟩

/-- C9: the migration success score equals the weighted sum of the eight
indicators and always lies in the range 0 to 100. -/
theorem calculateMigrationSuccess_weighted_sum (state : ProjectState) :
    calculateMigrationSuccess state =
      (if (state.dependencies.map Prod.fst).any (fun dep => sIncludes dep "para") then 15 else 0) +
      (if !((state.dependencies.map Prod.fst).any (fun dep =>
            sIncludes dep "privy" || sIncludes dep "reown" || sIncludes dep "web3modal")) then 15 else 0) +
      (if state.imports.any (fun imp => sIncludes imp.fromPkg "para") then 15 else 0) +
      (if !(state.imports.any (fun imp =>
            imp.type == ImportType.privy || imp.type == ImportType.reown ||
            imp.type == ImportType.web3modal)) then 10 else 0) +
      (if state.providers.any (fun p => p.provider == "ParaProvider") then 15 else 0) +
      (if state.imports.any (fun imp => sIncludes imp.imp "ParaModal") then 10 else 0) +
      (if state.styles.any (fun style => style.isParaStyle) then 10 else 0) +
      (if state.hooks.any (fun hook => sIncludes hook.fromPkg "para") then 10 else 0) ∧
    calculateMigrationSuccess state ≤ 100 := by
  have hround : ∀ n : Nat, (n * 100 + 50) / 100 = n := fun n => by omega
  constructor
  · simp only [calculateMigrationSuccess]
    exact hround _
  · simp only [calculateMigrationSuccess]
    rw [hround]
    repeat' split
    all_goals decide

/-- C10: the walletconnect strategy is declared in the enum and
walletconnect dependencies pass the migratable-content check, yet
`detectStrategy` can never return it and `createStrategy` always throws for
it. -/
theorem walletconnect_strategy_unreachable :
    strategyValue MigrationStrategy.walletconnectToPara = "walletconnect-to-para" ∧
    createStrategy MigrationStrategy.walletconnectToPara =
      Except.error "Unsupported migration strategy: walletconnect-to-para" ∧
    (∀ state : ProjectState,
      detectStrategy state ≠ some MigrationStrategy.walletconnectToPara) ∧
    (∀ state : ProjectState,
      (∃ p ∈ state.dependencies, sIncludes p.1 "walletconnect" = true) →
      (checkMigratableContent state).valid = true) ∧
    (∀ state : ProjectState,
      (∃ p ∈ state.dependencies, sIncludes p.1 "walletconnect" = true) →
      state.entryPoints.length ≠ 0 → (validatePreFlight state).valid = true) := by
  have h4 : ∀ state : ProjectState,
      (∃ p ∈ state.dependencies, sIncludes p.1 "walletconnect" = true) →
      (checkMigratableContent state).valid = true := by
    intro state hex
    obtain ⟨p, hp, hw⟩ := hex
    have hmem : p.1 ∈ (state.dependencies.map Prod.fst).filter (fun dep =>
        sIncludes dep "privy" || sIncludes dep "reown" ||
        sIncludes dep "web3modal" || sIncludes dep "walletconnect") :=
      List.mem_filter.mpr ⟨List.mem_map_of_mem _ hp, by simp [hw]⟩
    have hne : ((state.dependencies.map Prod.fst).filter (fun dep =>
        sIncludes dep "privy" || sIncludes dep "reown" ||
        sIncludes dep "web3modal" || sIncludes dep "walletconnect")).length ≠ 0 := by
      have := List.ne_nil_of_mem hmem
      simpa [List.length_eq_zero] using this
    simp [checkMigratableContent, hne]
  refine ⟨rfl, rfl, ?_, h4, ?_⟩
  · intro state h
    rw [detectStrategy_eq] at h
    cases h1 : privyDetectCond state <;> cases h2 : reownDetectCond state <;>
      cases h3 : web3modalDetectCond state <;> simp [h1, h2, h3] at h
  · intro state hex hep
    have h1 := h4 state hex
    simp only [validatePreFlight]
    simp [h1, checkProjectStructure, checkForConflicts, hep]

/-- Witness for C10: a project whose only wallet dependency is
`@walletconnect/modal` passes pre-flight validation, but strategy detection
yields none. -/
theorem walletconnect_strategy_unreachable_witness :
    (checkMigratableContent stateWalletconnectOnly).valid = true ∧
    (validatePreFlight stateWalletconnectOnly).valid = true ∧
    detectStrategy stateWalletconnectOnly = none ∧
    createStrategy MigrationStrategy.walletconnectToPara =
      Except.error "Unsupported migration strategy: walletconnect-to-para" := by
  have h := walletconnect_strategy_unreachable
  exact ⟨h.2.2.2.1 stateWalletconnectOnly
           ⟨("@walletconnect/modal", "2.6.0"), by decide, by decide⟩,
         h.2.2.2.2 stateWalletconnectOnly
           ⟨("@walletconnect/modal", "2.6.0"), by decide, by decide⟩ (by decide),
         by decide, h.2.1⟩

/-- C1: evaluation at a two-operation plan whose second, critical operation
fails.  The result reports `success=false`, `rollbackExecuted=true` and
`completedOperations = ["op0"]` (the prefix before the failure), and a
rollback plan with an inverse action per forward operation is generated by
`generateRollbackPlan`; yet zero inverse actions are invoked, because
`executeRollback` iterates the engine field `this.rollbackPlan`, which the
lifecycle never populates. -/
theorem critical_failure_rollback_plan_never_invoked :
    generateRollbackPlan [opA, opB] =
      [{ operationId := "op0", succeeds := true },
       { operationId := "op1", succeeds := true }] ∧
    executeAtomicMigrationLifecycle [checkPreOk, checkPostOk] [opA, opB] execFailOp1 =
      { result :=
          { success := false, completedOperations := ["op0"],
            failedOperations := ["op1"],
            validationResults := [{ valid := true, issues := [], warnings := [] }],
            rollbackExecuted := true, issues := [] },
        rollbackInvoked := [] } :=
  ⟨by decide, by decide⟩

/-- Counterexample for C2: with the rollback list `[rbA, rbB]`, the reversed
iteration invokes the failing action for `op1` first; the remaining inverse
action for `op0` is never invoked, the result reports
`rollbackExecuted=false` (not `true`), and a single `ROLLBACK_FAILED`
issue is emitted rather than one per step that could not be undone. -/
theorem rollback_abort_counterexample :
    (executeAtomicMigration [checkPreOk] [opB] (fun _ => false) [rbA, rbB]).rollbackInvoked = ["op1"] ∧
    (executeAtomicMigration [checkPreOk] [opB] (fun _ => false) [rbA, rbB]).result.rollbackExecuted = false ∧
    (executeAtomicMigration [checkPreOk] [opB] (fun _ => false) [rbA, rbB]).result.issues = [rollbackFailedIssue] := by
  decide

/-- Reduction of `executeAtomicMigration` to its failure handler on the
critical-abort path. -/
theorem executeAtomicMigration_abort_path (checks : List ValidationCheckM)
    (replacements : List ReplacementOperation) (exec : ReplacementOperation → Bool)
    (rollbackPlan : List RollbackOperation)
    (hpre : (runValidations .pre checks).valid = true)
    (habort : (runOperations exec replacements).2.2 = true) :
    executeAtomicMigration checks replacements exec rollbackPlan =
      handleFailure
        { success := false,
          completedOperations := (runOperations exec replacements).1,
          failedOperations := (runOperations exec replacements).2.1,
          validationResults := [runValidations .pre checks],
          rollbackExecuted := false, issues := [] } rollbackPlan := by
  unfold executeAtomicMigration
  simp [hpre, habort]

/-- C2 amended: during rollback, the first failing inverse action aborts all
remaining inverse actions (the ones earlier in the rollback list are never
invoked), the result reports `rollbackExecuted=false`, and exactly one
critical `ROLLBACK_FAILED` issue is emitted regardless of how many steps
were left undone. -/
theorem executeRollback_failure_aborts_remaining (checks : List ValidationCheckM)
    (replacements : List ReplacementOperation) (exec : ReplacementOperation → Bool)
    (rbs1 rbs2 : List RollbackOperation) (rb : RollbackOperation)
    (hpre : (runValidations .pre checks).valid = true)
    (habort : (runOperations exec replacements).2.2 = true)
    (hrb : rb.succeeds = false)
    (h2 : ∀ x ∈ rbs2, x.succeeds = true) :
    (executeAtomicMigration checks replacements exec (rbs1 ++ rb :: rbs2)).rollbackInvoked =
      rbs2.reverse.map (fun x => x.operationId) ++ [rb.operationId] ∧
    (executeAtomicMigration checks replacements exec (rbs1 ++ rb :: rbs2)).result.rollbackExecuted = false ∧
    (executeAtomicMigration checks replacements exec (rbs1 ++ rb :: rbs2)).result.issues = [rollbackFailedIssue] := by
  have hgo : rollbackGo ((rbs1 ++ rb :: rbs2).reverse) =
      (rbs2.reverse.map (fun x => x.operationId) ++ [rb.operationId], false) := by
    have hrev : (rbs1 ++ rb :: rbs2).reverse = rbs2.reverse ++ rb :: rbs1.reverse := by
      simp
    rw [hrev]
    exact rollbackGo_stops_at_failure _ _ _ (fun x hx => h2 x (by simpa using hx)) hrb
  rw [executeAtomicMigration_abort_path checks replacements exec _ hpre habort]
  unfold handleFailure executeRollback
  rw [hgo]
  simp

/-- Witness for C2: instantiation of the amended rollback-abort theorem at
the concrete two-element rollback list. -/
theorem executeRollback_failure_aborts_remaining_witness :
    (executeAtomicMigration [checkPreOk] [opB] (fun _ => false) ([rbA] ++ rbB :: [])).result.rollbackExecuted = false ∧
    (executeAtomicMigration [checkPreOk] [opB] (fun _ => false) ([rbA] ++ rbB :: [])).rollbackInvoked = ["op1"] := by
  have h := executeRollback_failure_aborts_remaining [checkPreOk] [opB]
    (fun _ => false) [rbA] [] rbB (by decide) (by decide) (by decide) (by simp)
  exact ⟨h.2.1, h.1.trans (by decide)⟩

/-- C4: when every failing operation is non-critical, execution records the
failures, continues through the whole plan in order, never triggers
rollback, and still reports success when both validation phases pass. -/
theorem noncritical_failures_never_rollback (checks : List ValidationCheckM)
    (replacements : List ReplacementOperation) (exec : ReplacementOperation → Bool)
    (hpre : (runValidations .pre checks).valid = true)
    (hpost : (runValidations .post checks).valid = true)
    (h : ∀ op ∈ replacements, exec op = false → op.critical = false) :
    (executeAtomicMigrationLifecycle checks replacements exec).result.success = true ∧
    (executeAtomicMigrationLifecycle checks replacements exec).result.completedOperations =
      (replacements.filter (fun op => exec op)).map (fun op => op.id) ∧
    (executeAtomicMigrationLifecycle checks replacements exec).result.failedOperations =
      (replacements.filter (fun op => !(exec op))).map (fun op => op.id) ∧
    (executeAtomicMigrationLifecycle checks replacements exec).result.rollbackExecuted = false ∧
    (executeAtomicMigrationLifecycle checks replacements exec).rollbackInvoked = [] := by
  simp [executeAtomicMigrationLifecycle, executeAtomicMigration, hpre, hpost,
    runOperations_no_crit exec replacements h]

/-- Witness for C4: a plan where the non-critical operation `nc-hook` fails
and the critical operation `op0` succeeds still produces a successful
result with no rollback. -/
theorem noncritical_failures_never_rollback_witness :
    (executeAtomicMigrationLifecycle [checkPreOk, checkPostOk] [ncOp, opA] execFailNc).result.success = true ∧
    (executeAtomicMigrationLifecycle [checkPreOk, checkPostOk] [ncOp, opA] execFailNc).result.completedOperations = ["op0"] ∧
    (executeAtomicMigrationLifecycle [checkPreOk, checkPostOk] [ncOp, opA] execFailNc).result.failedOperations = ["nc-hook"] ∧
    (executeAtomicMigrationLifecycle [checkPreOk, checkPostOk] [ncOp, opA] execFailNc).result.rollbackExecuted = false ∧
    (executeAtomicMigrationLifecycle [checkPreOk, checkPostOk] [ncOp, opA] execFailNc).rollbackInvoked = [] := by
  have h := noncritical_failures_never_rollback [checkPreOk, checkPostOk]
    [ncOp, opA] execFailNc (by decide) (by decide) (by decide)
  exact ⟨h.1, h.2.1.trans (by decide), h.2.2.1.trans (by decide), h.2.2.2.1, h.2.2.2.2⟩

/-- Counterexample for C5: on a pre-flight validation failure no operation
has been applied, yet the failure handler still runs the rollback routine
and the result reports `rollbackExecuted=true`. -/
theorem preflight_failure_reports_rollback_executed_cex :
    (executeAtomicMigrationLifecycle [checkPreBad] [opA] (fun _ => true)).result.rollbackExecuted = true ∧
    (executeAtomicMigrationLifecycle [checkPreBad] [opA] (fun _ => true)).result.completedOperations = [] := by
  decide

/-- C5 amended: an invalid pre-flight validation aborts before applying any
operation (`success=false`, no completed or failed operations, the
pre-flight issues reported); the catch handler still invokes the rollback
routine over the engine\x27s empty rollback list, so no inverse action runs
but the result reports `rollbackExecuted=true`. -/
theorem preflight_failure_aborts_with_rollback_flag (checks : List ValidationCheckM)
    (replacements : List ReplacementOperation) (exec : ReplacementOperation → Bool)
    (hpre : (runValidations .pre checks).valid = false) :
    (executeAtomicMigrationLifecycle checks replacements exec).result.success = false ∧
    (executeAtomicMigrationLifecycle checks replacements exec).result.completedOperations = [] ∧
    (executeAtomicMigrationLifecycle checks replacements exec).result.failedOperations = [] ∧
    (executeAtomicMigrationLifecycle checks replacements exec).result.issues =
      (runValidations .pre checks).issues ∧
    (executeAtomicMigrationLifecycle checks replacements exec).result.rollbackExecuted = true ∧
    (executeAtomicMigrationLifecycle checks replacements exec).rollbackInvoked = [] := by
  simp [executeAtomicMigrationLifecycle, executeAtomicMigration, hpre,
    handleFailure, executeRollback, engineRollbackPlanField, rollbackGo]

/-- Witness for C5: instantiation at a concrete failing pre-flight check. -/
theorem preflight_failure_aborts_with_rollback_flag_witness :
    (executeAtomicMigrationLifecycle [checkPreBad] [opA] (fun _ => true)).result.success = false ∧
    (executeAtomicMigrationLifecycle [checkPreBad] [opA] (fun _ => true)).result.failedOperations = [] ∧
    (executeAtomicMigrationLifecycle [checkPreBad] [opA] (fun _ => true)).result.issues =
      [{ severity := .critical, code := "PRE_FLIGHT_FAILED",
         message := "Old dependencies not present" }] ∧
    (executeAtomicMigrationLifecycle [checkPreBad] [opA] (fun _ => true)).rollbackInvoked = [] := by
  have h := preflight_failure_aborts_with_rollback_flag [checkPreBad] [opA]
    (fun _ => true) (by decide)
  exact ⟨h.1, h.2.2.1, h.2.2.2.1.trans (by decide), h.2.2.2.2.2⟩

/-- C3: every provider-block rewrite operation emitted by any strategy
execute has a newValue containing the target modal component name
`ParaModal` as a substring. -/
theorem provider_rewrites_contain_modal (state : ProjectState)
    (op : ReplacementOperation)
    (hmem : op ∈ privyExecute state ∨ op ∈ reownExecute state ∨
            op ∈ web3modalExecute state)
    (htype : op.type = OpType.provider) :
    sIncludes op.newValue "ParaModal" = true := by
  rcases hmem with h | h | h
  · unfold privyExecute at h
    rcases List.mem_append.mp h with h | hstyle
    · rcases List.mem_append.mp h with h | hhook
      · rcases List.mem_append.mp h with h | hprov
        · rcases List.mem_append.mp h with hdep | himp
          · simp at hdep
            rcases hdep with rfl | rfl | rfl <;> simp at htype
          · obtain ⟨i, hi, rfl⟩ := List.mem_map.mp himp
            simp at htype
        · obtain ⟨p, hp, rfl⟩ := List.mem_map.mp hprov
          show sIncludes (generateParaProviderPrivy p.props) "ParaModal" = true
          unfold generateParaProviderPrivy
          exact sIncludes_append_right _ _ _ (by decide)
      · obtain ⟨hk, hh, heq⟩ := List.mem_filterMap.mp hhook
        cases hr : privyHookReplacement hk.hook with
        | none => rw [hr] at heq; simp at heq
        | some nh =>
          rw [hr] at heq
          simp at heq
          subst heq
          simp at htype
    · obtain ⟨e, he, rfl⟩ := List.mem_map.mp hstyle
      simp at htype
  · unfold reownExecute at h
    rcases List.mem_append.mp h with h | hstyle
    · rcases List.mem_append.mp h with h | hhook
      · rcases List.mem_append.mp h with h | hprov
        · rcases List.mem_append.mp h with h | himp
          · rcases List.mem_append.mp h with hdep | hadd
            · obtain ⟨d, hd, rfl⟩ := List.mem_map.mp hdep
              simp at htype
            · simp at hadd
              subst hadd
              simp at htype
          · obtain ⟨i, hi, rfl⟩ := List.mem_map.mp himp
            simp at htype
        · obtain ⟨p, hp, rfl⟩ := List.mem_map.mp hprov
          show sIncludes (generateParaProviderReown p.props) "ParaModal" = true
          unfold generateParaProviderReown
          exact sIncludes_append_right _ _ _ (by decide)
      · obtain ⟨hk, hh, heq⟩ := List.mem_filterMap.mp hhook
        cases hr : getReownHookReplacement hk.hook with
        | none => rw [hr] at heq; simp at heq
        | some nh =>
          rw [hr] at heq
          simp at heq
          subst heq
          simp at htype
    · obtain ⟨e, he, rfl⟩ := List.mem_map.mp hstyle
      simp at htype
  · unfold web3modalExecute at h
    simp at h
    rcases h with rfl | rfl | rfl <;> simp at htype

/-- Witness for C3: the provider rewrite generated for a concrete
PrivyProvider usage carries a newValue containing the ParaModal
component. -/
theorem provider_rewrites_contain_modal_witness :
    sIncludes ((privyExecute statePrivyProvider).get ⟨3, (by decide)⟩).newValue
      "ParaModal" = true :=
  provider_rewrites_contain_modal statePrivyProvider _
    (Or.inl (List.get_mem _ _ _)) (by decide)

/-- C6: a state with no recognised source-provider fingerprint in its
dependency names or import sources yields no detected strategy, and the
migratable-content pre-flight check fails with the critical issue
`NO_MIGRATABLE_CONTENT`. -/
theorem no_fingerprints_detect_none (state : ProjectState)
    (hdep : ∀ p ∈ state.dependencies,
      sIncludes p.1 "privy" = false ∧ sIncludes p.1 "reown" = false ∧
      sIncludes p.1 "web3modal" = false ∧ sIncludes p.1 "walletconnect" = false)
    (himp : ∀ i ∈ state.imports,
      sIncludes i.fromPkg "privy" = false ∧ sIncludes i.fromPkg "reown" = false ∧
      sIncludes i.fromPkg "web3modal" = false) :
    detectStrategy state = none ∧
    (checkMigratableContent state).valid = false ∧
    (checkMigratableContent state).issues =
      [{ severity := Severity.critical, code := "NO_MIGRATABLE_CONTENT",
         message := "No wallet providers detected for migration",
         fix := some "Ensure the project uses Privy, ReOwn, Web3Modal, or WalletConnect" }] := by
  have hcontains : (state.dependencies.map Prod.fst).contains "@privy-io/react-auth" = false := by
    cases hc : (state.dependencies.map Prod.fst).contains "@privy-io/react-auth" with
    | false => rfl
    | true =>
      exfalso
      obtain ⟨b, hb, hbeq⟩ := List.contains_iff_exists_mem_beq.mp hc
      obtain ⟨p, hp, rfl⟩ := List.mem_map.mp hb
      have heq : "@privy-io/react-auth" = p.1 := eq_of_beq hbeq
      have hpriv := (hdep p hp).1
      rw [← heq] at hpriv
      exact absurd hpriv (by decide)
  have himpPrivy : (state.imports.any fun i => sIncludes i.fromPkg "privy") = false := by
    rw [List.any_eq_false]
    intro i hi
    simp [(himp i hi).1]
  have hdepReown : ((state.dependencies.map Prod.fst).any fun d => sIncludes d "reown") = false := by
    rw [List.any_eq_false]
    intro d hd
    obtain ⟨p, hp, rfl⟩ := List.mem_map.mp hd
    simp [(hdep p hp).2.1]
  have himpReown : (state.imports.any fun i => sIncludes i.fromPkg "reown") = false := by
    rw [List.any_eq_false]
    intro i hi
    simp [(himp i hi).2.1]
  have hdepW3 : ((state.dependencies.map Prod.fst).any fun d => sIncludes d "web3modal") = false := by
    rw [List.any_eq_false]
    intro d hd
    obtain ⟨p, hp, rfl⟩ := List.mem_map.mp hd
    simp [(hdep p hp).2.2.1]
  have himpW3 : (state.imports.any fun i => sIncludes i.fromPkg "web3modal") = false := by
    rw [List.any_eq_false]
    intro i hi
    simp [(himp i hi).2.2]
  have hfilter : (state.dependencies.map Prod.fst).filter (fun dep =>
      sIncludes dep "privy" || sIncludes dep "reown" ||
      sIncludes dep "web3modal" || sIncludes dep "walletconnect") = [] := by
    rw [List.filter_eq_nil_iff]
    intro a ha
    obtain ⟨p, hp, rfl⟩ := List.mem_map.mp ha
    obtain ⟨h1, h2, h3, h4⟩ := hdep p hp
    simp [h1, h2, h3, h4]
  refine ⟨?_, ?_, ?_⟩
  · rw [detectStrategy_eq]
    have hp : privyDetectCond state = false := by
      unfold privyDetectCond
      rw [hcontains, himpPrivy]
      rfl
    have hr : reownDetectCond state = false := by
      unfold reownDetectCond
      rw [hdepReown, himpReown]
      rfl
    have hw : web3modalDetectCond state = false := by
      unfold web3modalDetectCond
      rw [hdepW3, himpW3]
      rfl
    simp [hp, hr, hw]
  · simp [checkMigratableContent, hfilter]
  · simp [checkMigratableContent, hfilter]

/-- Witness for C6: a React-and-wagmi-only project has no detectable
strategy and fails the migratable-content check. -/
theorem no_fingerprints_detect_none_witness :
    detectStrategy stateNoFingerprints = none ∧
    (checkMigratableContent stateNoFingerprints).valid = false := by
  have h := no_fingerprints_detect_none stateNoFingerprints (by decide) (by decide)
  exact ⟨h.1, h.2.1⟩

/-- Counterexample for C8: with the target SDK dependency present, the
conflict check emits the overwrite warning, but the pre-flight battery
result carries no warnings at all. -/
theorem preflight_drops_conflict_warning_cex :
    (checkForConflicts stateParaPresent).warnings =
      ["Para SDK already present - migration may overwrite existing configuration"] ∧
    (validatePreFlight stateParaPresent).warnings = [] := by
  decide

/-- C8 amended: a dependency name containing the target fingerprint makes
`checkForConflicts` return a pure warning (valid, no issue), but
`validatePreFlight` discards its constituent checks\x27 warnings, so the
battery result\x27s warnings list is always empty. -/
theorem conflict_warning_not_propagated (state : ProjectState) :
    ((state.dependencies.map Prod.fst).any (fun dep => sIncludes dep "para") = true →
      checkForConflicts state =
        { valid := true, issues := [],
          warnings := ["Para SDK already present - migration may overwrite existing configuration"] }) ∧
    (validatePreFlight state).warnings = [] := by
  constructor
  · intro h
    simp [checkForConflicts, h]
  · rfl

/-- Witness for C8: instantiation at a project that already depends on the
target SDK. -/
theorem conflict_warning_not_propagated_witness :
    checkForConflicts stateParaPresent =
      { valid := true, issues := [],
        warnings := ["Para SDK already present - migration may overwrite existing configuration"] } ∧
    (validatePreFlight stateParaPresent).warnings = [] :=
  ⟨(conflict_warning_not_propagated stateParaPresent).1 (by decide),
   (conflict_warning_not_propagated stateParaPresent).2⟩
